import Mathlib

/-!
Verification development for the Tickefy embedding-index and identity-matching
subsystem (`src/facial_recognition_pipelines/index_pipeline.py`,
`src/api/root.py`, `src/api/utils/helpers.py`).

The Python module state (`METADATA`, `INDEX`) is modelled as an explicit
`EmbeddingStore` record threaded through the operations.  Embeddings are an
abstract type parameter `α` (their numeric content is irrelevant to the store
operations); similarity scores returned by the faiss search are rationals.
Python exceptions become an explicit error type `PyErr`:
each distinct exception class the code can let escape is one constructor, and
the generic `Exception("An unexpected error occurred...")` wrapper that the
`except Exception` blocks raise is the single constructor `PyErr.unexpected`.
-/

/-- One entry of the metadata ledger (`METADATA` in `index_pipeline.py`):
`{"user_id": ..., "image_path": ..., "hash": ...}`. -/
structure IdentityRecord where
  user_id : String
  image_path : String
  hash : String
deriving DecidableEq, Repr

/-- Error kinds observable by a caller of the pipeline functions.
`emptyIndex` is `EmptyIndexError`, `faceDetection` is `FaceDetectionError`,
`indexError` is a bare Python `IndexError`, `dimensionMismatch` is the
spec's `DimensionMismatchError` kind, and `unexpected` is the generic
`Exception("An unexpected error occurred. Please try again later...")`
raised by the catch-all handlers. -/
inductive PyErr where
  | emptyIndex
  | faceDetection
  | indexError
  | dimensionMismatch
  | unexpected
deriving DecidableEq, Repr

/-- The in-memory store: the `METADATA` list together with the vectors held by
the faiss `INDEX` (whose `ntotal` is `vectors.length`). -/
structure EmbeddingStore (α : Type) where
  metadata : List IdentityRecord
  vectors : List α
deriving Repr

/-- The store as created on first use, before any ingestion. -/
def emptyStore (α : Type) : EmbeddingStore α := ⟨[], []⟩

/-- Configured embedding width (`DIMENSION = 512`). -/
def DIMENSION : ℕ := 512

/-- Result of one `index_embedding` call as seen by the caller: the duplicate
branch (`return` at the top) is `skipped`, the full append path is `ok`, and a
raised exception is `err`. -/
inductive IngestResult where
  | skipped
  | ok
  | err (e : PyErr)
deriving DecidableEq, Repr

/-- The externally visible steps of a non-skipped `index_embedding` call, in
the order the call performs them. -/
inductive IngestEvent where
  | appendMeta
  | appendVec
  | persistIndex
  | persistMeta
deriving DecidableEq, Repr

/-- Model of `index_embedding(image_path, user_id, image_hash)`.
The function builds `processed_images = set(item["image_path"] for item in
METADATA)` and returns early when `image_path` is in it; otherwise it computes
the embedding (`calculate_face_embeddings`, modelled by the oracle `extract`,
which may fail with `FaceDetectionError`), appends the metadata record, appends
the embedding to the faiss index, writes the index artifact and then rewrites
the metadata artifact.  The returned trace lists those steps in order. -/
def index_embedding (st : EmbeddingStore α) (extract : String → Except PyErr α)
    (image_path user_id image_hash : String) :
    EmbeddingStore α × IngestResult × List IngestEvent :=
  if st.metadata.any (fun item => item.image_path == image_path) then
    (st, .skipped, [])
  else
    match extract image_path with
    | .error e => (st, .err e, [])
    | .ok emb =>
        (⟨st.metadata ++ [⟨user_id, image_path, image_hash⟩], st.vectors ++ [emb]⟩,
         .ok,
         [.appendMeta, .appendVec, .persistIndex, .persistMeta])

/-- Model of `is_indexed(image_hash)`: `len(METADATA) > 0 and
any(item.get("hash") == image_hash for item in METADATA)`. -/
def is_indexed (st : EmbeddingStore α) (image_hash : String) : Bool :=
  decide (0 < st.metadata.length) && st.metadata.any (fun item => item.hash == image_hash)

/-- Model of `is_empty_index()`: `INDEX.ntotal == 0`. -/
def is_empty_index (st : EmbeddingStore α) : Bool :=
  st.vectors.length == 0

/-- Model of `get_metadata_for_index(idx)`.  The code guards only
`idx < len(METADATA)` and then evaluates `METADATA[idx]["user_id"]`, so a
negative `idx` follows Python list-indexing semantics: indices in
`[-len, 0)` resolve from the end, indices below `-len` raise `IndexError`. -/
def get_metadata_for_index (metadata : List IdentityRecord) (idx : ℤ) : Except PyErr String :=
  if idx < (metadata.length : ℤ) then
    if 0 ≤ idx then
      match metadata.get? idx.toNat with
      | some item => .ok item.user_id
      | none => .error .indexError
    else if 0 ≤ (metadata.length : ℤ) + idx then
      match metadata.get? ((metadata.length : ℤ) + idx).toNat with
      | some item => .ok item.user_id
      | none => .error .indexError
    else .error .indexError
  else .ok "Unknown"

/-- Model of `K = 4 if INDEX.ntotal > 4 else 1` in `compare_faces`. -/
def chooseK (ntotal : ℕ) : ℕ :=
  if 4 < ntotal then 4 else 1

/-- Model of `compare_faces`.  The faiss call `INDEX.search(embedding, K)` is
the oracle `search`, returning the ranked `(ordinal, score)` list; the code
reads only `D[0][0]` and `I[0][0]`.  An empty store raises `EmptyIndexError`,
re-raised unchanged through the `except IndexError` branch (the exceptions
module is not among the sources; `EmptyIndexError` is modelled from the spec
as a distinct error kind that reaches the caller).  Python
`int(best_similarity * 100)` truncates toward zero; on the branch taken the
score is at least `4/5 > 0`, where truncation coincides with `Int.floor`. -/
def compare_faces (metadata : List IdentityRecord) (ntotal : ℕ)
    (search : ℕ → List (ℤ × ℚ)) : Except PyErr (ℤ × String) :=
  if ntotal = 0 then .error .emptyIndex
  else
    match search (chooseK ntotal) with
    | [] => .error .indexError
    | (ord, score) :: _ =>
      if score < 4/5 then .ok (0, "Unknown")
      else
        match get_metadata_for_index metadata ord with
        | .ok label => .ok (Int.floor (score * 100), label)
        | .error e => .error e

/-- Model of `load_index()`.  `cached` is the module-global `INDEX` (`None`
until the first call), `disk` is the persisted artifact at `INDEX_PATH` (or
`none` when the file does not exist).  On a dimension mismatch the code raises
`ValueError`, which the surrounding `except Exception` handler catches and
replaces with the generic unexpected-error exception. -/
structure FaissIndex (α : Type) where
  d : ℕ
  vecs : List α
deriving DecidableEq, Repr

def load_index (cached : Option (FaissIndex α)) (disk : Option (FaissIndex α)) :
    Except PyErr (FaissIndex α) :=
  match cached with
  | some idx => .ok idx
  | none =>
    match disk with
    | some idx =>
      if idx.d ≠ DIMENSION then .error .unexpected
      else .ok idx
    | none => .ok ⟨DIMENSION, []⟩

/-- One call to the ingestion entry point, as issued by the API layer. -/
structure IngestCall where
  image_path : String
  user_id : String
  image_hash : String
deriving DecidableEq, Repr

/-- The store after one `index_embedding` call (result and trace dropped). -/
def ingestStep (st : EmbeddingStore α) (extract : String → Except PyErr α)
    (c : IngestCall) : EmbeddingStore α :=
  (index_embedding st extract c.image_path c.user_id c.image_hash).1

/-- The store after a sequence of `index_embedding` calls. -/
def runIngests (extract : String → Except PyErr α) :
    EmbeddingStore α → List IngestCall → EmbeddingStore α
  | st, [] => st
  | st, c :: cs => runIngests extract (ingestStep st extract c) cs

/-- The `(record, embedding)` pair a call appends when it is successful
(non-skipped and the embedding extraction succeeds), `none` otherwise.
Mirrors the branch structure of `index_embedding`. -/
def callPair (st : EmbeddingStore α) (extract : String → Except PyErr α)
    (c : IngestCall) : Option (IdentityRecord × α) :=
  if st.metadata.any (fun item => item.image_path == c.image_path) then none
  else
    match extract c.image_path with
    | .ok emb => some (⟨c.user_id, c.image_path, c.image_hash⟩, emb)
    | .error _ => none

/-- The ordered list of `(record, embedding)` pairs appended by the successful
calls of a call sequence. -/
def ingestLog (extract : String → Except PyErr α) :
    EmbeddingStore α → List IngestCall → List (IdentityRecord × α)
  | _, [] => []
  | st, c :: cs => (callPair st extract c).toList ++ ingestLog extract (ingestStep st extract c) cs

/-- Outcome of the `assess_image_quality` endpoint (`src/api/root.py`):
`duplicate` is the duplicate-image `ValueError` (HTTP 400), `conflict` is
`ExistingUserError(label)` (HTTP 409), `accepted` is the normal JSON response
`{"is_image_valid": valid}` together with the resulting store, `failed` is any
other raised error (HTTP 400). -/
inductive EnrollOutcome (α : Type) where
  | duplicate
  | conflict (label : String)
  | accepted (st : EmbeddingStore α) (valid : Bool)
  | failed (e : PyErr)
deriving Repr

/-- Model of the tail of the endpoint (lines 40-45 of `root.py`):
`save_image` returns `(ret, path)` with `ret = valid_face`, and
`index_embedding(img_path, user_id, image_hash)` runs only when `ret` holds. -/
def save_and_index (st : EmbeddingStore α) (extract : String → Except PyErr α)
    (img_path user_id image_hash : String) (valid : Bool) : EnrollOutcome α :=
  if valid then
    match index_embedding st extract img_path user_id image_hash with
    | (_, .err e, _) => .failed e
    | (st2, _, _) => .accepted st2 true
  else .accepted st false

/-- Model of the `assess_image_quality` endpoint.  `valid_face` is the verdict
of the external quality gate `is_valid_face`; `search` is the faiss search
oracle used by the inner `compare_faces` call; `img_path` is the fresh path
`save_image` stores the upload under.  The conflict test is the code's
`if similarity > .8 and label != user_id`, where `similarity` is the integer
percentage returned by `compare_faces`. -/
def assess_image_quality (st : EmbeddingStore α) (extract : String → Except PyErr α)
    (search : ℕ → List (ℤ × ℚ)) (user_id image_hash img_path : String)
    (valid_face : Bool) : EnrollOutcome α :=
  if is_indexed st image_hash then .duplicate
  else if is_empty_index st = false ∧ valid_face = true then
    match compare_faces st.metadata st.vectors.length search with
    | .error e => .failed e
    | .ok (similarity, label) =>
      if (4/5 : ℚ) < (similarity : ℚ) ∧ label ≠ user_id then .conflict label
      else save_and_index st extract img_path user_id image_hash valid_face
  else save_and_index st extract img_path user_id image_hash valid_face

/-!
Model of `src/api/utils/helpers.py`: `sha256_of_bytes` and
`compute_image_hash`.  The Python code delegates to `hashlib.sha256`; the
definition below is the SHA-256 function itself (FIPS 180-4), computed over
bytes represented as naturals below 256, with 32-bit words represented as
naturals reduced modulo `2 ^ 32`.
-/

/-- Reduce to a 32-bit word. -/
def w32 (n : ℕ) : ℕ := n % 2 ^ 32

/-- Right rotation of a 32-bit word. -/
def rotr32 (x n : ℕ) : ℕ := w32 ((x >>> n) ||| (x <<< (32 - n)))

/-- SHA-256 big sigma-0. -/
def bSig0 (x : ℕ) : ℕ := rotr32 x 2 ^^^ rotr32 x 13 ^^^ rotr32 x 22

/-- SHA-256 big sigma-1. -/
def bSig1 (x : ℕ) : ℕ := rotr32 x 6 ^^^ rotr32 x 11 ^^^ rotr32 x 25

/-- SHA-256 small sigma-0. -/
def sSig0 (x : ℕ) : ℕ := rotr32 x 7 ^^^ rotr32 x 18 ^^^ (x >>> 3)

/-- SHA-256 small sigma-1. -/
def sSig1 (x : ℕ) : ℕ := rotr32 x 17 ^^^ rotr32 x 19 ^^^ (x >>> 10)

/-- SHA-256 choose function; `x ^^^ 0xffffffff` is 32-bit complement. -/
def shaCh (x y z : ℕ) : ℕ := (x &&& y) ^^^ ((x ^^^ 0xffffffff) &&& z)

/-- SHA-256 majority function. -/
def shaMaj (x y z : ℕ) : ℕ := (x &&& y) ^^^ (x &&& z) ^^^ (y &&& z)

/-- The 64 SHA-256 round constants (FIPS 180-4 section 4.2.2, here written as
decimal literals). -/
def shaK : List ℕ :=
  [1116352408, 1899447441, 3049323471, 3921009573, 961987163, 1508970993,
   2453635748, 2870763221, 3624381080, 310598401, 607225278, 1426881987,
   1925078388, 2162078206, 2614888103, 3248222580, 3835390401, 4022224774,
   264347078, 604807628, 770255983, 1249150122, 1555081692, 1996064986,
   2554220882, 2821834349, 2952996808, 3210313671, 3336571891, 3584528711,
   113926993, 338241895, 666307205, 773529912, 1294757372, 1396182291,
   1695183700, 1986661051, 2177026350, 2456956037, 2730485921, 2820302411,
   3259730800, 3345764771, 3516065817, 3600352804, 4094571909, 275423344,
   430227734, 506948616, 659060556, 883997877, 958139571, 1322822218,
   1537002063, 1747873779, 1955562222, 2024104815, 2227730452, 2361852424,
   2428436474, 2756734187, 3204031479, 3329325298]

/-- The SHA-256 initial hash value (FIPS 180-4 section 5.3.3, decimal). -/
def shaH0 : List ℕ :=
  [1779033703, 3144134277, 1013904242, 2773480762,
   1359893119, 2600822924, 528734635, 1541459225]

/-- Big-endian byte decomposition: `beBytes k n` is the `k` lowest bytes of
`n`, most significant first. -/
def beBytes : ℕ → ℕ → List ℕ
  | 0, _ => []
  | k + 1, n => beBytes k (n / 256) ++ [n % 256]

/-- SHA-256 message padding for a message of `len` bytes. -/
def shaPad (len : ℕ) : List ℕ :=
  0x80 :: List.replicate ((64 - (len + 9) % 64) % 64) 0 ++ beBytes 8 (8 * len)

/-- Pack a byte list into big-endian 32-bit words, four bytes per word. -/
def beWords : List ℕ → List ℕ
  | b0 :: b1 :: b2 :: b3 :: rest =>
      (((b0 <<< 8 ||| b1) <<< 8 ||| b2) <<< 8 ||| b3) :: beWords rest
  | _ => []

/-- Extend a 16-word message schedule by `t` further words. -/
def extendW : ℕ → List ℕ → List ℕ
  | 0, w => w
  | t + 1, w =>
      let n := w.length
      extendW t (w ++ [w32 (sSig1 (w.getD (n - 2) 0) + w.getD (n - 7) 0 +
        sSig0 (w.getD (n - 15) 0) + w.getD (n - 16) 0)])

/-- One SHA-256 round: fold state `(a,b,c,d,e,f,g,h)` with a `(k, w)` pair. -/
def shaRound (s : ℕ × ℕ × ℕ × ℕ × ℕ × ℕ × ℕ × ℕ) (kw : ℕ × ℕ) :
    ℕ × ℕ × ℕ × ℕ × ℕ × ℕ × ℕ × ℕ :=
  match s with
  | (a, b, c, d, e, f, g, h) =>
    let t1 := w32 (h + bSig1 e + shaCh e f g + kw.1 + kw.2)
    let t2 := w32 (bSig0 a + shaMaj a b c)
    (w32 (t1 + t2), a, b, c, w32 (d + t1), e, f, g)

/-- SHA-256 compression of one 64-byte block into the running hash value. -/
def shaCompress (hv : List ℕ) (block : List ℕ) : List ℕ :=
  let ws := extendW 48 (beWords block)
  match (shaK.zip ws).foldl shaRound
      (hv.getD 0 0, hv.getD 1 0, hv.getD 2 0, hv.getD 3 0,
       hv.getD 4 0, hv.getD 5 0, hv.getD 6 0, hv.getD 7 0) with
  | (a, b, c, d, e, f, g, h) =>
    [w32 (hv.getD 0 0 + a), w32 (hv.getD 1 0 + b), w32 (hv.getD 2 0 + c),
     w32 (hv.getD 3 0 + d), w32 (hv.getD 4 0 + e), w32 (hv.getD 5 0 + f),
     w32 (hv.getD 6 0 + g), w32 (hv.getD 7 0 + h)]

/-- Fold the compression function over `blocks` 64-byte chunks. -/
def shaBlocks : ℕ → List ℕ → List ℕ → List ℕ
  | 0, hv, _ => hv
  | t + 1, hv, bytes => shaBlocks t (shaCompress hv (bytes.take 64)) (bytes.drop 64)

/-- The eight 32-bit words of the SHA-256 digest of a byte sequence. -/
def sha256words (msg : List ℕ) : List ℕ :=
  let padded := msg ++ shaPad msg.length
  shaBlocks (padded.length / 64) shaH0 padded

/-- Lowercase hex character of a value below 16. -/
def hexChar (n : ℕ) : Char :=
  Char.ofNat (if n < 10 then 48 + n else 87 + n)

/-- The eight hex characters of a 32-bit word, most significant first. -/
def wordHexChars (w : ℕ) : List Char :=
  [hexChar (w / 2 ^ 28 % 16), hexChar (w / 2 ^ 24 % 16), hexChar (w / 2 ^ 20 % 16),
   hexChar (w / 2 ^ 16 % 16), hexChar (w / 2 ^ 12 % 16), hexChar (w / 2 ^ 8 % 16),
   hexChar (w / 2 ^ 4 % 16), hexChar (w % 16)]

/-- Model of `sha256_of_bytes(data)`: the lowercase hex digest
(`sha256(data).hexdigest()`). -/
def sha256_of_bytes (data : List ℕ) : String :=
  String.mk (List.flatten ((sha256words data).map wordHexChars))

/-- Model of a FastAPI `UploadFile`: the uploaded bytes plus the current read
offset of the underlying stream. -/
structure UploadFile where
  data : List ℕ
  pos : ℕ
deriving DecidableEq, Repr

/-- Model of `await image.read()`: returns everything from the current offset
and leaves the offset at end-of-stream. -/
def fileRead (f : UploadFile) : List ℕ × UploadFile :=
  (f.data.drop f.pos, { f with pos := f.data.length })

/-- Model of `await image.seek(n)`. -/
def fileSeek (f : UploadFile) (n : ℕ) : UploadFile :=
  { f with pos := n }

/-- Model of `compute_image_hash(image)`: read the entire contents, hash them,
rewind to offset 0, return the digest (and the file in its final state). -/
def compute_image_hash (f : UploadFile) : String × UploadFile :=
  let r := fileRead f
  (sha256_of_bytes r.1, fileSeek r.2 0)

/-!
Support lemmas shared by the claim theorems.
-/

/-- For a nonnegative ordinal, `get_metadata_for_index` always succeeds
(either with the stored `user_id` or with the `"Unknown"` sentinel). -/
theorem get_metadata_nonneg_ok (metadata : List IdentityRecord) (idx : ℤ) (h0 : 0 ≤ idx) :
    ∃ label, get_metadata_for_index metadata idx = .ok label := by
  unfold get_metadata_for_index
  by_cases hlt : idx < (metadata.length : ℤ)
  · rw [if_pos hlt, if_pos h0]
    have hn : idx.toNat < metadata.length := by omega
    rw [List.get?_eq_get hn]
    exact ⟨_, rfl⟩
  · rw [if_neg hlt]
    exact ⟨_, rfl⟩

/-- One ingestion step appends exactly the pair described by `callPair` to the
metadata list and to the vector list. -/
theorem ingestStep_append (st : EmbeddingStore α) (extract : String → Except PyErr α)
    (c : IngestCall) :
    (ingestStep st extract c).metadata
        = st.metadata ++ ((callPair st extract c).toList.map Prod.fst)
  ∧ (ingestStep st extract c).vectors
        = st.vectors ++ ((callPair st extract c).toList.map Prod.snd) := by
  unfold ingestStep callPair index_embedding
  by_cases hc : st.metadata.any (fun item => item.image_path == c.image_path)
  · simp [hc]
  · simp only [hc, Bool.false_eq_true, if_false]
    cases hx : extract c.image_path <;> simp

/-- The store after a call sequence is the starting store extended by the
pairs of the successful calls, in order. -/
theorem runIngests_spec (extract : String → Except PyErr α) (calls : List IngestCall) :
    ∀ st : EmbeddingStore α,
      (runIngests extract st calls).metadata
          = st.metadata ++ (ingestLog extract st calls).map Prod.fst
    ∧ (runIngests extract st calls).vectors
          = st.vectors ++ (ingestLog extract st calls).map Prod.snd := by
  induction calls with
  | nil => intro st; simp [runIngests, ingestLog]
  | cons c cs ih =>
    intro st
    have hstep := ingestStep_append st extract c
    refine ⟨?_, ?_⟩
    · rw [runIngests, ingestLog, List.map_append, (ih _).1, hstep.1, List.append_assoc]
    · rw [runIngests, ingestLog, List.map_append, (ih _).2, hstep.2, List.append_assoc]

/-!
Claim theorems.
-/

/-- C1 (corrected).  The ingest call `index_embedding` is idempotent keyed on
the record's `image_path`, not on its content hash: if the `image_path` is
already present in the metadata ledger the call returns skipped, appends no
vector and no metadata record, and changes nothing; a content hash already
present in the ledger does not by itself cause a skip (see the
counterexample).  The content-hash duplicate gate is enforced by the caller:
the enrollment endpoint checks `is_indexed(image_hash)` first and rejects the
request as a duplicate before ever calling `index_embedding`. -/
theorem C1_ingest_keyed_on_image_path (α : Type) :
    (∀ (st : EmbeddingStore α) (extract : String → Except PyErr α) (p u h : String),
        st.metadata.any (fun item => item.image_path == p) = true →
        index_embedding st extract p u h = (st, .skipped, []))
  ∧ (∀ (st : EmbeddingStore α) (extract : String → Except PyErr α)
        (search : ℕ → List (ℤ × ℚ)) (u h path : String) (valid : Bool),
        is_indexed st h = true →
        assess_image_quality st extract search u h path valid = .duplicate) := by
  constructor
  · intro st extract p u h hp
    unfold index_embedding
    rw [if_pos hp]
  · intro st extract search u h path valid hq
    unfold assess_image_quality
    rw [if_pos hq]

/-- C1 witness: a concrete skipped call (duplicate `image_path`) and a
concrete endpoint-level duplicate rejection (duplicate hash). -/
theorem C1_witness :
    index_embedding (⟨[⟨"alice", "p1", "h1"⟩], [0]⟩ : EmbeddingStore ℕ)
      (fun _ => .ok 0) "p1" "carol" "h9"
      = (⟨[⟨"alice", "p1", "h1"⟩], [0]⟩, .skipped, [])
  ∧ assess_image_quality (⟨[⟨"alice", "p1", "h1"⟩], [0]⟩ : EmbeddingStore ℕ)
      (fun _ => .ok 0) (fun _ => []) "bob" "h1" "p9" true = .duplicate :=
  ⟨(C1_ingest_keyed_on_image_path ℕ).1 _ _ _ _ _ rfl,
   (C1_ingest_keyed_on_image_path ℕ).2 _ _ _ _ _ _ _ rfl⟩

/-- C1 counterexample: a record whose `content_hash` is already in the ledger
but whose `image_path` is fresh is NOT skipped — the call appends a second
vector and a second metadata record, so `total_entries` changes. -/
theorem C1_cex_duplicate_hash_not_skipped :
    is_indexed (⟨[⟨"alice", "p1", "h1"⟩], [0]⟩ : EmbeddingStore ℕ) "h1" = true
  ∧ (index_embedding (⟨[⟨"alice", "p1", "h1"⟩], [0]⟩ : EmbeddingStore ℕ)
      (fun _ => .ok 7) "p2" "bob" "h1").2.1 = .ok
  ∧ (index_embedding (⟨[⟨"alice", "p1", "h1"⟩], [0]⟩ : EmbeddingStore ℕ)
      (fun _ => .ok 7) "p2" "bob" "h1").1.metadata.length = 2
  ∧ (index_embedding (⟨[⟨"alice", "p1", "h1"⟩], [0]⟩ : EmbeddingStore ℕ)
      (fun _ => .ok 7) "p2" "bob" "h1").1.vectors.length = 2 :=
  ⟨rfl, rfl, rfl, rfl⟩

/-- C2 (confirmed).  Starting from the empty store, after any sequence of
ingest calls the metadata ledger is exactly the list of records of the
successful (non-skipped, non-failing) calls in order, and the vector index is
exactly the list of their embeddings in order; hence both have equal length
and the i-th metadata record describes the vector at ordinal position i.
Moreover every single call only appends: the previous metadata list and
vector list are preserved as prefixes. -/
theorem C2_positional_alignment (α : Type) (extract : String → Except PyErr α)
    (calls : List IngestCall) :
    (runIngests extract (emptyStore α) calls).metadata.length
        = (runIngests extract (emptyStore α) calls).vectors.length
  ∧ (runIngests extract (emptyStore α) calls).metadata
        = (ingestLog extract (emptyStore α) calls).map Prod.fst
  ∧ (runIngests extract (emptyStore α) calls).vectors
        = (ingestLog extract (emptyStore α) calls).map Prod.snd
  ∧ ∀ (st : EmbeddingStore α) (c : IngestCall),
      (∃ t, (ingestStep st extract c).metadata = st.metadata ++ t)
    ∧ (∃ t, (ingestStep st extract c).vectors = st.vectors ++ t) := by
  obtain ⟨hm, hv⟩ := runIngests_spec extract calls (emptyStore α)
  rw [show (emptyStore α).metadata = [] from rfl, List.nil_append] at hm
  rw [show (emptyStore α).vectors = [] from rfl, List.nil_append] at hv
  refine ⟨?_, hm, hv, ?_⟩
  · rw [hm, hv, List.length_map, List.length_map]
  · intro st c
    obtain ⟨h1, h2⟩ := ingestStep_append st extract c
    exact ⟨⟨_, h1⟩, ⟨_, h2⟩⟩

/-- C3 (confirmed).  For an identify query against a non-empty store whose
top-ranked search result is `(ord, score)` and whose top ordinal resolves to
`label`: if `score < 0.8` the result is similarity 0 with label `"Unknown"`;
if `score ≥ 0.8` (including exactly `0.8`) the result is the resolved label
with similarity `⌊score * 100⌋`, an integer in `[80, 100]` (for unit vectors
the inner-product score is at most 1).  `get_metadata_nonneg_ok` shows the
resolution hypothesis is satisfiable for every nonnegative ordinal. -/
theorem C3_threshold_decision (metadata : List IdentityRecord) (ntotal : ℕ)
    (search : ℕ → List (ℤ × ℚ)) (ord : ℤ) (score : ℚ) (rest : List (ℤ × ℚ))
    (label : String) (hn : 0 < ntotal)
    (hs : search (chooseK ntotal) = (ord, score) :: rest)
    (hget : get_metadata_for_index metadata ord = .ok label) :
    (score < 4/5 → compare_faces metadata ntotal search = .ok (0, "Unknown"))
  ∧ (4/5 ≤ score → score ≤ 1 →
      compare_faces metadata ntotal search = .ok (Int.floor (score * 100), label)
      ∧ 80 ≤ Int.floor (score * 100) ∧ Int.floor (score * 100) ≤ 100) := by
  unfold compare_faces
  rw [if_neg (by omega), hs]
  dsimp only
  constructor
  · intro hlt
    rw [if_pos hlt]
  · intro h1 h2
    rw [if_neg (not_lt.mpr h1), hget]
    refine ⟨rfl, ?_, ?_⟩
    · rw [Int.le_floor]
      push_cast
      nlinarith
    · have : score * 100 ≤ (100 : ℚ) := by nlinarith
      calc Int.floor (score * 100) ≤ Int.floor (100 : ℚ) := Int.floor_le_floor this
        _ = 100 := by norm_num

/-- C3 witness: the exact threshold boundary `score = 0.8` yields the resolved
label with similarity 80, and `score = 0.79` yields `(0, "Unknown")`. -/
theorem C3_witness :
    compare_faces [⟨"alice", "p1", "h1"⟩] 1 (fun _ => [((0 : ℤ), (4 : ℚ)/5)])
      = .ok (Int.floor ((4 : ℚ)/5 * 100), "alice")
  ∧ 80 ≤ Int.floor ((4 : ℚ)/5 * 100) ∧ Int.floor ((4 : ℚ)/5 * 100) ≤ 100
  ∧ compare_faces [⟨"alice", "p1", "h1"⟩] 1 (fun _ => [((0 : ℤ), (79 : ℚ)/100)])
      = .ok (0, "Unknown") := by
  obtain ⟨ha, hb, hc⟩ :=
    (C3_threshold_decision [⟨"alice", "p1", "h1"⟩] 1 (fun _ => [((0 : ℤ), (4 : ℚ)/5)])
      0 ((4 : ℚ)/5) [] "alice" (by decide) rfl rfl).2 (le_refl _) (by norm_num)
  refine ⟨ha, hb, hc, ?_⟩
  exact (C3_threshold_decision [⟨"alice", "p1", "h1"⟩] 1 (fun _ => [((0 : ℤ), (79 : ℚ)/100)])
      0 ((79 : ℚ)/100) [] "alice" (by decide) rfl rfl).1 (by norm_num)

/-- C4 (confirmed, with the missing exceptions module modelled from the spec).
Identify on a store with zero entries fails with the distinct `EmptyIndexError`
kind: the result is an error, its kind differs from the generic
unexpected-error kind and from the face-detection kind, and it is never the
`.ok` result that "no match found" produces. -/
theorem C4_empty_store_error (metadata : List IdentityRecord)
    (search : ℕ → List (ℤ × ℚ)) :
    compare_faces metadata 0 search = .error .emptyIndex
  ∧ PyErr.emptyIndex ≠ PyErr.unexpected
  ∧ PyErr.emptyIndex ≠ PyErr.faceDetection
  ∧ ∀ r : ℤ × String, compare_faces metadata 0 search ≠ .ok r := by
  refine ⟨rfl, by decide, by decide, ?_⟩
  intro r h
  rw [show compare_faces metadata 0 search = .error .emptyIndex from rfl] at h
  exact Except.noConfusion h

/-- C5 (confirmed).  In enrollment with a claimed `user_id`, with the hash not
yet indexed, the store non-empty and the quality gate passed: when the match
result `(similarity, label)` satisfies the code's test
`similarity > 0.8 and label != user_id` (the returned similarity being the
integer percentage, so any at-or-above-threshold match to another identity
qualifies — 0.92 against alice while claiming bob gives `(92, "alice")`),
the request is rejected with the conflict error carrying the matched label;
otherwise the flow proceeds to save and ingest under the claimed identity. -/
theorem C5_claimed_identity_conflict (α : Type) (st : EmbeddingStore α)
    (extract : String → Except PyErr α) (search : ℕ → List (ℤ × ℚ))
    (user_id image_hash img_path label : String) (similarity : ℤ)
    (hdup : is_indexed st image_hash = false)
    (hne : is_empty_index st = false)
    (hcf : compare_faces st.metadata st.vectors.length search = .ok (similarity, label)) :
    ((4/5 : ℚ) < (similarity : ℚ) ∧ label ≠ user_id →
       assess_image_quality st extract search user_id image_hash img_path true
         = .conflict label)
  ∧ (¬((4/5 : ℚ) < (similarity : ℚ) ∧ label ≠ user_id) →
       assess_image_quality st extract search user_id image_hash img_path true
         = save_and_index st extract img_path user_id image_hash true) := by
  by_cases hcond : (4/5 : ℚ) < (similarity : ℚ) ∧ label ≠ user_id
  · refine ⟨fun _ => ?_, fun h => absurd hcond h⟩
    simp [assess_image_quality, hdup, hne, hcf, hcond]
  · refine ⟨fun h => absurd h hcond, fun _ => ?_⟩
    simp [assess_image_quality, hdup, hne, hcf, hcond]

/-- C5 witness: the spec's conflict scenario — the store holds alice's
embedding, the caller claims bob, the uploaded image scores 0.92 against
alice — is rejected with the conflict error carrying "alice". -/
theorem C5_witness :
    assess_image_quality (⟨[⟨"alice", "pa", "ha"⟩], [0]⟩ : EmbeddingStore ℕ)
      (fun _ => .ok 0) (fun _ => [((0 : ℤ), (92 : ℚ)/100)]) "bob" "hb" "pb" true
      = .conflict "alice" :=
  (C5_claimed_identity_conflict ℕ ⟨[⟨"alice", "pa", "ha"⟩], [0]⟩
      (fun _ => .ok 0) (fun _ => [((0 : ℤ), (92 : ℚ)/100)]) "bob" "hb" "pb" "alice" 92
      rfl rfl (by norm_num [compare_faces, chooseK, get_metadata_for_index])).1
    ⟨by norm_num, by decide⟩

/-- C6 (corrected).  `get_metadata_for_index` returns the `"Unknown"` sentinel
exactly for ordinals at or beyond the ledger length.  Because the code's guard
is only `idx < len(METADATA)`, a negative ordinal follows Python indexing:
ordinals in `[-length, 0)` resolve to the record at `length + ordinal`, and
ordinals below `-length` raise `IndexError` instead of returning a sentinel. -/
theorem C6_out_of_range_ordinals (metadata : List IdentityRecord) (idx : ℤ) :
    ((metadata.length : ℤ) ≤ idx → get_metadata_for_index metadata idx = .ok "Unknown")
  ∧ (idx < -(metadata.length : ℤ) →
      get_metadata_for_index metadata idx = .error .indexError)
  ∧ (-(metadata.length : ℤ) ≤ idx → idx < 0 →
      ∀ item, metadata.get? ((metadata.length : ℤ) + idx).toNat = some item →
        get_metadata_for_index metadata idx = .ok item.user_id) := by
  refine ⟨?_, ?_, ?_⟩
  · intro h
    unfold get_metadata_for_index
    rw [if_neg (by omega)]
  · intro h
    unfold get_metadata_for_index
    rw [if_pos (by omega), if_neg (by omega), if_neg (by omega)]
  · intro h1 h2 item hitem
    unfold get_metadata_for_index
    rw [if_pos (by omega), if_neg (by omega), if_pos (by omega), hitem]

/-- C6 witness: a past-the-end ordinal yields the sentinel, an ordinal below
`-length` fails with `IndexError`. -/
theorem C6_witness :
    get_metadata_for_index [⟨"alice", "p1", "h1"⟩] 5 = .ok "Unknown"
  ∧ get_metadata_for_index [⟨"alice", "p1", "h1"⟩] (-2) = .error .indexError :=
  ⟨(C6_out_of_range_ordinals [⟨"alice", "p1", "h1"⟩] 5).1 (by decide),
   (C6_out_of_range_ordinals [⟨"alice", "p1", "h1"⟩] (-2)).2.1 (by decide)⟩

/-- C6 counterexample: the ordinal `-1` is not a valid zero-based position of
a one-record ledger, yet `get` resolves it to the last record's `user_id`
("alice", not "Unknown"); and on an empty ledger the ordinal `-1` raises
`IndexError`, so the operation can fail. -/
theorem C6_cex_negative_ordinal :
    get_metadata_for_index [⟨"alice", "p1", "h1"⟩] (-1) = .ok "alice"
  ∧ "alice" ≠ "Unknown"
  ∧ get_metadata_for_index [] (-1) = .error .indexError :=
  ⟨rfl, by decide, rfl⟩

/-- C7 (corrected).  Loading a persisted index whose stored width differs from
the configured dimension 512 does fail — it is never silently auto-repaired
and never yields a loaded index — but the `ValueError` is caught by the
catch-all handler and re-raised as the generic unexpected-error kind, not as
a distinct `DimensionMismatchError`. -/
theorem C7_dimension_mismatch_wrapped (α : Type) (disk : FaissIndex α)
    (hd : disk.d ≠ DIMENSION) :
    load_index none (some disk) = .error .unexpected
  ∧ ∀ idx : FaissIndex α, load_index none (some disk) ≠ .ok idx := by
  have h : load_index none (some disk) = .error .unexpected := by
    unfold load_index
    dsimp only
    rw [if_pos hd]
  refine ⟨h, fun idx hcontra => ?_⟩
  rw [h] at hcontra
  exact Except.noConfusion hcontra

/-- C7 witness: a persisted index of width 300 fails to load with the generic
unexpected-error kind. -/
theorem C7_witness :
    load_index (none : Option (FaissIndex ℕ)) (some ⟨300, []⟩) = .error .unexpected :=
  (C7_dimension_mismatch_wrapped ℕ ⟨300, []⟩ (by decide)).1

/-- C7 counterexample: on a width-256 persisted index the load fails with the
generic unexpected-error kind, which is a different kind from the spec's
distinct `DimensionMismatchError`; the claim "fails with
DimensionMismatchError — a distinct error kind" is false of the code. -/
theorem C7_cex_generic_not_distinct :
    load_index (none : Option (FaissIndex ℕ)) (some ⟨256, []⟩) = .error .unexpected
  ∧ PyErr.unexpected ≠ PyErr.dimensionMismatch
  ∧ load_index (none : Option (FaissIndex ℕ)) (some ⟨256, []⟩)
      ≠ .error .dimensionMismatch :=
  ⟨rfl, by decide, fun hcontra => by
    rw [show load_index (none : Option (FaissIndex ℕ)) (some ⟨256, []⟩)
        = Except.error PyErr.unexpected from rfl] at hcontra
    exact PyErr.noConfusion (Except.error.inj hcontra)⟩

/-- C8 (confirmed).  Every `index_embedding` call either performs no
externally visible step (skipped or failed before any append) or performs
exactly, in order: append the metadata record in memory, append the embedding
to the vector index in memory, persist the vector index artifact, persist the
metadata artifact; in particular the metadata artifact is never written before
the vector index artifact.  A non-skipped call with a successful embedding
extraction always performs the full ordered sequence. -/
theorem C8_persist_order (α : Type) (extract : String → Except PyErr α) :
    (∀ (st : EmbeddingStore α) (p u h : String),
        (index_embedding st extract p u h).2.2 = []
      ∨ (index_embedding st extract p u h).2.2
          = [.appendMeta, .appendVec, .persistIndex, .persistMeta])
  ∧ ∀ (st : EmbeddingStore α) (p u h : String) (emb : α),
      st.metadata.any (fun item => item.image_path == p) = false →
      extract p = .ok emb →
      (index_embedding st extract p u h).2.2
        = [.appendMeta, .appendVec, .persistIndex, .persistMeta] := by
  constructor
  · intro st p u h
    unfold index_embedding
    by_cases hp : st.metadata.any (fun item => item.image_path == p)
    · rw [if_pos hp]
      exact Or.inl rfl
    · rw [if_neg hp]
      cases hx : extract p
      · exact Or.inl rfl
      · exact Or.inr rfl
  · intro st p u h emb hp hx
    unfold index_embedding
    rw [hp]
    simp only [Bool.false_eq_true, if_false, hx]

/-- C8 witness: a concrete successful ingestion performs the four steps in
the specified order. -/
theorem C8_witness :
    (index_embedding (emptyStore ℕ) (fun _ => .ok 3) "p1" "alice" "h1").2.2
      = [.appendMeta, .appendVec, .persistIndex, .persistMeta] :=
  (C8_persist_order ℕ (fun _ => .ok 3)).2 (emptyStore ℕ) "p1" "alice" "h1" 3 rfl rfl

/-- C9 (confirmed).  For a non-empty store, the neighbor count is
`k = min(4, total_entries) = 4` when `total_entries > 4` and `k = 1`
otherwise; the search oracle is invoked at exactly that `k`, and the final
decision depends only on the top-ranked `(ordinal, score)` pair: two search
outcomes with the same head produce the same `compare_faces` result. -/
theorem C9_neighbor_count (metadata : List IdentityRecord) (ntotal : ℕ)
    (s1 s2 : ℕ → List (ℤ × ℚ)) (hn : 0 < ntotal) :
    (4 < ntotal → chooseK ntotal = min 4 ntotal ∧ chooseK ntotal = 4)
  ∧ (ntotal ≤ 4 → chooseK ntotal = 1)
  ∧ ((s1 (chooseK ntotal)).head? = (s2 (chooseK ntotal)).head? →
      compare_faces metadata ntotal s1 = compare_faces metadata ntotal s2) := by
  refine ⟨?_, ?_, ?_⟩
  · intro h4
    unfold chooseK
    rw [if_pos h4]
    omega
  · intro h4
    unfold chooseK
    rw [if_neg (by omega)]
  · intro hhead
    unfold compare_faces
    rw [if_neg (by omega), if_neg (by omega)]
    cases h1 : s1 (chooseK ntotal) with
    | nil =>
      cases h2 : s2 (chooseK ntotal) with
      | nil => rfl
      | cons b bs => rw [h1, h2] at hhead; exact absurd hhead (by simp)
    | cons a as =>
      cases h2 : s2 (chooseK ntotal) with
      | nil => rw [h1, h2] at hhead; exact absurd hhead (by simp)
      | cons b bs =>
        rw [h1, h2] at hhead
        simp only [List.head?_cons, Option.some.injEq] at hhead
        rw [hhead]

/-- C9 witness: with five entries the neighbor count is `min 4 5 = 4`, and
two search outcomes agreeing on the top pair give the same decision. -/
theorem C9_witness :
    chooseK 5 = min 4 5
  ∧ chooseK 3 = 1
  ∧ compare_faces [⟨"alice", "p1", "h1"⟩] 5 (fun _ => [((0 : ℤ), (1 : ℚ)/2)])
      = compare_faces [⟨"alice", "p1", "h1"⟩] 5
          (fun _ => [((0 : ℤ), (1 : ℚ)/2), ((0 : ℤ), (1 : ℚ)/3)]) :=
  ⟨((C9_neighbor_count [] 5 (fun _ => []) (fun _ => []) (by decide)).1 (by decide)).1,
   (C9_neighbor_count [] 3 (fun _ => []) (fun _ => []) (by decide)).2.1 (by decide),
   (C9_neighbor_count [⟨"alice", "p1", "h1"⟩] 5 (fun _ => [((0 : ℤ), (1 : ℚ)/2)])
      (fun _ => [((0 : ℤ), (1 : ℚ)/2), ((0 : ℤ), (1 : ℚ)/3)]) (by decide)).2.2 rfl⟩

/-- C10 (confirmed).  `compute_image_hash` reads the stream from offset 0,
returns the SHA-256 hex digest of exactly the uploaded bytes, and rewinds the
stream to offset 0, so a subsequent read sees the full content; the digest is
a function of the bytes alone, so two computations over identical bytes agree
and a retried upload of the same bytes always hits the duplicate gate. -/
theorem C10_content_hash_deterministic (f : UploadFile) (hf : f.pos = 0) :
    (compute_image_hash f).1 = sha256_of_bytes f.data
  ∧ (compute_image_hash f).2.pos = 0
  ∧ (fileRead (compute_image_hash f).2).1 = f.data
  ∧ ∀ g : UploadFile, g.pos = 0 → g.data = f.data →
      (compute_image_hash g).1 = (compute_image_hash f).1 := by
  obtain ⟨d, p⟩ := f
  cases hf
  refine ⟨by simp [compute_image_hash, fileRead, fileSeek],
          rfl,
          by simp [compute_image_hash, fileRead, fileSeek], ?_⟩
  rintro ⟨d2, p2⟩ hg hdata
  cases hg
  simp only at hdata
  rw [hdata]

/-- C10 witness: concrete two-byte upload at offset 0. -/
theorem C10_witness :
    (compute_image_hash ⟨[104, 105], 0⟩).1 = sha256_of_bytes [104, 105]
  ∧ (compute_image_hash ⟨[104, 105], 0⟩).2.pos = 0
  ∧ (fileRead (compute_image_hash ⟨[104, 105], 0⟩).2).1 = [104, 105] :=
  ⟨(C10_content_hash_deterministic ⟨[104, 105], 0⟩ rfl).1,
   (C10_content_hash_deterministic ⟨[104, 105], 0⟩ rfl).2.1,
   (C10_content_hash_deterministic ⟨[104, 105], 0⟩ rfl).2.2.1⟩
